import Mathlib

/-!
# Verification of the VoiceMediaAI pipeline relay server

Shallow embedding of the pipeline relay (src/main.ts, v6.2.1 section) and
proofs about its claims: the G.711 mu-law codec, the VAD turn segmenter,
the prompt optimizer, the flow-state injector, the streaming LLM scanner,
the provider-neutral frame encoder, the callEnded latch, and the
single-turn orchestrator discipline.

Strings are modelled with Lean `String`; indices and lengths count Unicode
scalar values, which agree with JavaScript UTF-16 indices on the
basic-multilingual-plane text this program manipulates.
-/

namespace VoiceMediaAI

/-! ## JavaScript-style string helpers

These mirror the exact semantics of the JS string operations used by the
source: `slice`, `substring`, `trim`, `indexOf`, `toUpperCase`,
`split(' ')[0]`, `includes`, and truthiness of numbers and strings. -/

/-- JS truthiness of an optional number: `null` and `0` are falsy. -/
def jsFalsyNum : Option Nat → Bool
  | none => true
  | some 0 => true
  | some (_ + 1) => false

/-- `s.slice(0, n)` / `s.substring(0, n)`: the first `n` characters. -/
def jsTake (s : String) (n : Nat) : String :=
  ⟨s.data.take n⟩

/-- `s.slice(a)`: drop the first `a` characters. -/
def jsDrop (s : String) (a : Nat) : String :=
  ⟨s.data.drop a⟩

/-- `s.slice(a, b)` for `0 ≤ a ≤ b`. -/
def jsSlice (s : String) (a b : Nat) : String :=
  ⟨(s.data.take b).drop a⟩

/-- `s.trim()`: strip leading and trailing whitespace (space, tab,
newline, carriage return — the whitespace this program encounters). -/
def jsTrim (s : String) : String :=
  ⟨((s.data.dropWhile Char.isWhitespace).reverse.dropWhile
      Char.isWhitespace).reverse⟩

/-- `arr.slice(-n)`: the last `n` elements (all of them if fewer). -/
def jsSliceLast {α : Type} (n : Nat) (l : List α) : List α :=
  l.drop (l.length - n)

/-- JS `toUpperCase` on the characters this program manipulates:
ASCII letters and the Spanish accented vowels and enye. -/
def jsToUpperChar (c : Char) : Char :=
  if c.isLower then c.toUpper
  else if c = 'á' then 'Á'
  else if c = 'é' then 'É'
  else if c = 'í' then 'Í'
  else if c = 'ó' then 'Ó'
  else if c = 'ú' then 'Ú'
  else if c = 'ñ' then 'Ñ'
  else if c = 'ü' then 'Ü'
  else c

/-- `s.toUpperCase()`. -/
def jsToUpper (s : String) : String :=
  ⟨s.data.map jsToUpperChar⟩

/-- Substring search on character lists, returning the first index at which
`needle` occurs, like JS `indexOf` (with `some i` for `i` and `none` for `-1`). -/
def indexOfAux (needle : List Char) : List Char → Nat → Option Nat
  | hay, i =>
    if needle.isPrefixOf hay then some i
    else
      match hay with
      | [] => none
      | _ :: t => indexOfAux needle t (i + 1)

/-- `hay.indexOf(needle)`. -/
def jsIndexOf (hay needle : String) : Option Nat :=
  indexOfAux needle.data hay.data 0

/-- `s.includes(c)` for a single character. -/
def jsIncludesChar (s : String) (c : Char) : Bool :=
  s.data.contains c

/-- `s.split(' ')[0]`: the prefix up to the first space. -/
def jsSplitSpaceHead (s : String) : String :=
  ⟨s.data.takeWhile (fun c => c ≠ ' ')⟩

/-! ## Decimal rendering of a number (JS template `${n}`) -/

/-- One decimal digit as a character. -/
def decDigitChar (d : Nat) : Char :=
  Char.ofNat (48 + d)

/-- The decimal digits of a positive number, most significant first. -/
def decDigits : Nat → List Char
  | 0 => []
  | n + 1 => decDigits ((n + 1) / 10) ++ [decDigitChar ((n + 1) % 10)]
decreasing_by exact Nat.div_lt_self (Nat.succ_pos n) (by omega)

/-- JS decimal rendering of a natural number, as in `${turnCount + 1}`. -/
def natToDec (n : Nat) : String :=
  if n = 0 then "0" else ⟨decDigits n⟩

/-! ## G.711 mu-law codec (`ULAW_DECODE_TABLE`, `decodeUlaw`) -/

/-- The fixed 256-entry mu-law decode table, copied from the source. -/
def ULAW_DECODE_TABLE : List Int := [
  -32124, -31100, -30076, -29052, -28028, -27004, -25980, -24956,
  -23932, -22908, -21884, -20860, -19836, -18812, -17788, -16764,
  -15996, -15484, -14972, -14460, -13948, -13436, -12924, -12412,
  -11900, -11388, -10876, -10364, -9852, -9340, -8828, -8316,
  -7932, -7676, -7420, -7164, -6908, -6652, -6396, -6140,
  -5884, -5628, -5372, -5116, -4860, -4604, -4348, -4092,
  -3900, -3772, -3644, -3516, -3388, -3260, -3132, -3004,
  -2876, -2748, -2620, -2492, -2364, -2236, -2108, -1980,
  -1884, -1820, -1756, -1692, -1628, -1564, -1500, -1436,
  -1372, -1308, -1244, -1180, -1116, -1052, -988, -924,
  -876, -844, -812, -780, -748, -716, -684, -652,
  -620, -588, -556, -524, -492, -460, -428, -396,
  -372, -356, -340, -324, -308, -292, -276, -260,
  -244, -228, -212, -196, -180, -164, -148, -132,
  -120, -112, -104, -96, -88, -80, -72, -64,
  -56, -48, -40, -32, -24, -16, -8, 0,
  32124, 31100, 30076, 29052, 28028, 27004, 25980, 24956,
  23932, 22908, 21884, 20860, 19836, 18812, 17788, 16764,
  15996, 15484, 14972, 14460, 13948, 13436, 12924, 12412,
  11900, 11388, 10876, 10364, 9852, 9340, 8828, 8316,
  7932, 7676, 7420, 7164, 6908, 6652, 6396, 6140,
  5884, 5628, 5372, 5116, 4860, 4604, 4348, 4092,
  3900, 3772, 3644, 3516, 3388, 3260, 3132, 3004,
  2876, 2748, 2620, 2492, 2364, 2236, 2108, 1980,
  1884, 1820, 1756, 1692, 1628, 1564, 1500, 1436,
  1372, 1308, 1244, 1180, 1116, 1052, 988, 924,
  876, 844, 812, 780, 748, 716, 684, 652,
  620, 588, 556, 524, 492, 460, 428, 396,
  372, 356, 340, 324, 308, 292, 276, 260,
  244, 228, 212, 196, 180, 164, 148, 132,
  120, 112, 104, 96, 88, 80, 72, 64,
  56, 48, 40, 32, 24, 16, 8, 0]

/-- `decodeUlaw`: one 16-bit PCM sample per input byte, by table lookup.
The input is the byte sequence obtained from the base64 payload. -/
def decodeUlaw (bytes : List (Fin 256)) : List Int :=
  bytes.map (fun b => ULAW_DECODE_TABLE.getD b.val 0)

/-- Sum of squares of a PCM frame, as used by `calculateRmsDb`. -/
def sumSq (pcm : List Int) : Int :=
  pcm.foldl (fun acc x => acc + x * x) 0

/-- `calculateRmsDb(pcm) >= -40`, expressed exactly in integers:
`20*log10(sqrt(sum/len)/32768) >= -40` iff `10000*sum >= 32768^2*len`
(both sides nonnegative; the empty or all-zero frame reads as negative
infinity and compares below any threshold). -/
def hasVoice40 (pcm : List Int) : Bool :=
  decide (pcm.length ≠ 0 ∧ 10000 * sumSq pcm ≥ 1073741824 * (pcm.length : Int))

/-- `calculateRmsDb(pcm) >= -35` (the barge-in threshold), expressed exactly:
squaring twice turns the half-decibel exponent into integers,
`10^7 * sum^2 >= 32768^4 * len^2`. -/
def hasVoice35 (pcm : List Int) : Bool :=
  decide (pcm.length ≠ 0 ∧
    10000000 * sumSq pcm * sumSq pcm ≥
      1152921504606846976 * (pcm.length : Int) * (pcm.length : Int))

/-! ## VAD / Turn segmenter (`TurnManager`)

State and transition translated from `TurnManager.processChunk`.  The
silence threshold is fixed at -40 dB, as in both the constructor default
and the only call site (`new TurnManager({silenceThresholdDb: -40, ...})`).
`silenceStartTime` and `turnStartTime` are `Option Nat` (JS `null` is
`none`); the JS falsy test `!this.silenceStartTime` also treats the
timestamp `0` as unset, via `jsFalsyNum`. -/

structure VADConfig where
  silenceDurationMs : Nat
  prefixBufferMs : Nat
  minTurnDurationMs : Nat
  deriving Repr, DecidableEq

structure TurnState where
  pcmChunks : List (List Int)
  prefixBuffer : List (List Int)
  isUserSpeaking : Bool
  silenceStartTime : Option Nat
  turnStartTime : Option Nat
  totalChunksReceived : Nat
  totalVoiceChunks : Nat
  deriving Repr, DecidableEq

/-- The initial `TurnManager` state after the constructor. -/
def TurnState.init : TurnState :=
  ⟨[], [], false, none, none, 0, 0⟩

structure TurnResult where
  pcmBuffer : List Int
  durationMs : Nat
  deriving Repr, DecidableEq

/-- `TurnManager.processChunk`.  `bytes` is the decoded base64 payload;
`now` is `Date.now()` at this call.  Returns the new state and the
emitted turn, if any. -/
def processChunk (cfg : VADConfig) (maxPrefixChunks : Nat) (st : TurnState)
    (bytes : List (Fin 256)) (now : Nat) : TurnState × Option TurnResult :=
  let st := { st with totalChunksReceived := st.totalChunksReceived + 1 }
  let pcm := decodeUlaw bytes
  let hasVoice := hasVoice40 pcm
  -- always maintain the prefix ring buffer
  let pb := st.prefixBuffer ++ [pcm]
  let pb := if pb.length > maxPrefixChunks then pb.tail else pb
  let st := { st with prefixBuffer := pb }
  if hasVoice then
    let st := { st with totalVoiceChunks := st.totalVoiceChunks + 1 }
    if !st.isUserSpeaking then
      -- transition: silence -> speaking; seed the turn buffer with the ring
      ({ st with isUserSpeaking := true, silenceStartTime := none,
                 turnStartTime := some now, pcmChunks := pb }, none)
    else
      ({ st with pcmChunks := st.pcmChunks ++ [pcm] }, none)
  else
    if st.isUserSpeaking then
      let st := { st with pcmChunks := st.pcmChunks ++ [pcm] }
      let st :=
        if jsFalsyNum st.silenceStartTime then
          { st with silenceStartTime := some now }
        else st
      let sst := st.silenceStartTime.getD 0
      let silenceDuration := now - sst
      if silenceDuration ≥ cfg.silenceDurationMs then
        let turnDuration :=
          if jsFalsyNum st.turnStartTime then 0 else now - st.turnStartTime.getD 0
        if turnDuration ≥ cfg.minTurnDurationMs ∧ st.pcmChunks.length > 0 then
          let combined := st.pcmChunks.flatten
          ({ st with isUserSpeaking := false, silenceStartTime := none,
                     turnStartTime := none, pcmChunks := [] },
           some ⟨combined, turnDuration⟩)
        else
          ({ st with isUserSpeaking := false, silenceStartTime := none,
                     turnStartTime := none, pcmChunks := [] }, none)
      else (st, none)
    else (st, none)

/-- Run the segmenter over a trace of `(payload bytes, Date.now())` frames,
collecting the duration of each emitted turn (or `none` for a frame that
emitted nothing). -/
def runTurnChunks (cfg : VADConfig) (maxPrefixChunks : Nat) (st : TurnState) :
    List (List (Fin 256) × Nat) → TurnState × List (Option Nat)
  | [] => (st, [])
  | (bytes, now) :: rest =>
    let (st2, res) := processChunk cfg maxPrefixChunks st bytes now
    let (stF, outs) := runTurnChunks cfg maxPrefixChunks st2 rest
    (stF, res.map (·.durationMs) :: outs)

/-! ## System prompt optimization
(`findSectionBoundaries`, `optimizeSystemPrompt`, `truncateSystemPrompt`) -/

def MAX_SYSTEM_PROMPT_CHARS : Nat := 32000
def PERSONA_BUDGET : Nat := 4000
def SCRIPT_BUDGET : Nat := 16000
def RULES_BUDGET : Nat := 6000

def scriptMarkers : List String :=
  ["FLUJO DE", "FLUJO:", "SCRIPT:", "PASOS:", "PASO 1", "## Flujo",
   "## Script", "CONVERSACIÓN:", "GUIÓN"]

def rulesMarkers : List String :=
  ["IMPORTANTE:", "RESTRICCIONES:", "REGLAS:", "NUNCA:", "NO DEBES",
   "PROHIBIDO", "LINEAMIENTOS", "DIRECTRICES"]

/-- Does the section-break regex `\n##[^#]|\n---|\n===|\n\*\*\*` match at the
head of this character list? -/
def breakHere : List Char → Bool
  | '\n' :: '#' :: '#' :: c :: _ => c ≠ '#'
  | '\n' :: '-' :: '-' :: '-' :: _ => true
  | '\n' :: '=' :: '=' :: '=' :: _ => true
  | '\n' :: '*' :: '*' :: '*' :: _ => true
  | _ => false

/-- Index of the first (leftmost) match of the section-break regex. -/
def findBreakAux : List Char → Nat → Option Nat
  | cs, i =>
    if breakHere cs then some i
    else
      match cs with
      | [] => none
      | _ :: t => findBreakAux t (i + 1)

def findBreak (s : String) : Option Nat :=
  findBreakAux s.data 0

/-- Result of `findSectionBoundaries`: `none` stands for `-1`. -/
structure SectionBoundaries where
  scriptStart : Option Nat
  scriptEnd : Nat
  rulesStart : Option Nat
  deriving Repr, DecidableEq

/-- `findSectionBoundaries`: earliest case-insensitive script marker, the
rules marker fold (a candidate must both improve minimality and sit after
the script start), and the script end (rules start, or the first section
break strictly after the script start, observing the JS falsy test
`if (breakMatch?.index)` that ignores a break at offset `0`). -/
def findSectionBoundaries (prompt : String) : SectionBoundaries :=
  let up := jsToUpper prompt
  let scriptStart := scriptMarkers.foldl
    (fun acc m =>
      match jsIndexOf up (jsToUpper m) with
      | none => acc
      | some idx =>
        match acc with
        | none => some idx
        | some s => if idx < s then some idx else acc)
    none
  let rulesStart := rulesMarkers.foldl
    (fun acc m =>
      match jsIndexOf up (jsToUpper m) with
      | none => acc
      | some idx =>
        let improves := match acc with
          | none => true
          | some r => idx < r
        if improves then
          match scriptStart with
          | none => some idx
          | some s => if idx > s then some idx else acc
        else acc)
    none
  let scriptEnd :=
    match scriptStart with
    | none => prompt.length
    | some s =>
      let breakEnd :=
        let afterScript := jsDrop prompt s
        match findBreak afterScript with
        | some i => if i ≠ 0 then s + i else prompt.length
        | none => prompt.length
      match rulesStart with
      | some r => if r > s then r else breakEnd
      | none => breakEnd
  ⟨scriptStart, scriptEnd, rulesStart⟩

/-- `optimizeSystemPrompt`: reorganize so the script comes first, then the
persona, then the rules, each truncated to its budget; with no script
section, truncate to 32 KB with a trailing ellipsis marker. -/
def optimizeSystemPrompt (prompt : String) : String :=
  if prompt.isEmpty then prompt
  else
    let b := findSectionBoundaries prompt
    match b.scriptStart with
    | none =>
      if prompt.length ≤ MAX_SYSTEM_PROMPT_CHARS then prompt
      else jsTake prompt (MAX_SYSTEM_PROMPT_CHARS - 100) ++ "\n\n[... truncado ...]"
    | some scriptStart =>
      let persona := jsTrim (jsTake prompt scriptStart)
      let script := jsTrim (jsSlice prompt scriptStart b.scriptEnd)
      let rules :=
        match b.rulesStart with
        | some r => jsTrim (jsDrop prompt r)
        | none => ""
      let truncatedPersona := jsTake persona PERSONA_BUDGET
      let truncatedScript := jsTake script SCRIPT_BUDGET
      let truncatedRules := jsTake rules RULES_BUDGET
      jsTrim ("[SCRIPT DE CONVERSACIÓN - PRIORIDAD MÁXIMA]\n" ++ truncatedScript ++
        "\n\n[CONTEXTO Y PERSONA]\n" ++ truncatedPersona ++ "\n\n" ++
        (if truncatedRules.isEmpty then ""
         else "[REGLAS Y RESTRICCIONES]\n" ++ truncatedRules))

/-- `truncateSystemPrompt`, the legacy alias. -/
def truncateSystemPrompt (prompt : String) : String :=
  optimizeSystemPrompt prompt

/-! ## Flow-state injector (`detectFlowState`, `SCRIPT_REMINDER`) -/

inductive Role where
  | system
  | user
  | assistant
  deriving Repr, DecidableEq

/-- `ChatMessage` / `ChatMessageForFlow`. -/
structure ChatMessageF where
  role : Role
  content : String
  deriving Repr, DecidableEq

/-- The common head of every flow-state template:
`[ESTADO ACTUAL DEL FLUJO]\nPASO `. -/
def FLOW_HEADER : String := "[ESTADO ACTUAL DEL FLUJO]\nPASO "

/-- `detectFlowState`: counts user messages in the given history and emits
the matching instruction template (empty for turn 0). -/
def detectFlowState (conversationHistory : List ChatMessageF) : String :=
  let userMessages := conversationHistory.filter (fun m => m.role == Role.user)
  let turnCount := userMessages.length
  let lastUserMessage :=
    match userMessages.getLast? with
    | some m => m.content
    | none => ""
  let possibleName :=
    match userMessages.head? with
    | some m => jsTrim m.content
    | none => ""
  let isLikelyName := possibleName.length < 50 && !(jsIncludesChar possibleName '?')
  let extractedName := if isLikelyName then jsSplitSpaceHead possibleName else "el cliente"
  if turnCount = 0 then ""
  else if turnCount = 1 then
    FLOW_HEADER ++ "2:" ++ " El cliente acaba de responder" ++
      (if isLikelyName then " (posible nombre: \"" ++ extractedName ++ "\")" else "") ++
      ".\nINSTRUCCIÓN: Continúa con el SIGUIENTE PASO de tu script. NO repitas el saludo.\n- Si obtuviste el nombre, confírmalo brevemente y avanza al siguiente paso del flujo.\n- Sigue las instrucciones de tu script para el PASO 2 (puede ser: confirmar interés, calificar, presentar oferta, etc.)\n- Mantén la respuesta CORTA y NATURAL para una llamada telefónica.\n\n"
  else if turnCount = 2 then
    FLOW_HEADER ++ "3:" ++ " La conversación está en progreso. El cliente respondió: \"" ++
      jsTake lastUserMessage 60 ++ (if lastUserMessage.length > 60 then "..." else "") ++
      "\"\nINSTRUCCIÓN: Avanza al siguiente paso de tu script según la respuesta del cliente.\n- Responde a lo que dijo el cliente\n- Continúa con el flujo establecido\n- Mantén respuestas BREVES y naturales\n\n"
  else
    FLOW_HEADER ++ natToDec (turnCount + 1) ++ ":" ++ " Conversación avanzada (" ++
      natToDec turnCount ++ " intercambios realizados).\nINSTRUCCIÓN: Continúa siguiendo tu script. Si el cliente mostró interés, avanza hacia el cierre.\n- Responde a: \"" ++
      jsTake lastUserMessage 40 ++ (if lastUserMessage.length > 40 then "..." else "") ++
      "\"\n- Mantén el flujo del script\n- Respuestas CORTAS y directas\n\n"

/-- The `SCRIPT_REMINDER` constant appended after the optimized prompt. -/
def SCRIPT_REMINDER : String :=
  "\n\n[RECORDATORIO FINAL]\nSigue el flujo del script. Respuestas breves y naturales."

/-- The enhanced system prompt built by `generateLLMResponseStreaming`:
flow state (over the last 6 messages of the history it was given),
prepended to the optimized prompt, plus the reminder. -/
def buildEnhancedPrompt (systemPrompt : String)
    (conversationHistory : List ChatMessageF) : String :=
  let truncatedPrompt := truncateSystemPrompt systemPrompt
  let recentHistory := jsSliceLast 6 conversationHistory
  let flowState := detectFlowState recentHistory
  flowState ++ truncatedPrompt ++ SCRIPT_REMINDER

/-! ## Streaming LLM first-sentence scanner
(`generateLLMResponseStreaming`, read loop) -/

/-- Is this character one of the sentence terminators `.!?` of the regex
`/[.!?]/` (opening punctuation such as the inverted marks never matches)? -/
def isTerminator (c : Char) : Bool :=
  c == '.' || c == '!' || c == '?'

/-- Index of the first terminator in the accumulated text, as found by
`fullText.match(/[.!?]/)`. -/
def firstTermIdx (s : String) : Option Nat :=
  s.data.findIdx? isTerminator

/-- The early-start condition actually evaluated by the code on the
accumulated text: the first terminator sits at index at least 10 and the
trimmed prefix through it has length at least 20. -/
def codeFireCond (t : String) : Bool :=
  match firstTermIdx t with
  | none => false
  | some i => decide (10 ≤ i) && decide (20 ≤ (jsTrim (jsTake t (i + 1))).length)

/-- The first sentence extracted on a fire:
`fullText.slice(0, endMatch.index + 1).trim()`. -/
def firstSentenceOf (t : String) : String :=
  match firstTermIdx t with
  | none => ""
  | some i => jsTrim (jsTake t (i + 1))

/-- The claim reads: fire as soon as the accumulated text CONTAINS (anywhere)
a terminator whose index is at least 10 and whose trimmed prefix has length
at least 20.  Stated for comparison with `codeFireCond`. -/
def claimFireCond (t : String) : Bool :=
  (List.range t.data.length).any (fun i =>
    (match t.data.get? i with
     | some c => isTerminator c
     | none => false) &&
    decide (10 ≤ i) && decide (20 ≤ (jsTrim (jsTake t (i + 1))).length))

/-- Accumulator of the LLM read loop: the accumulated text, the
`firstSentenceSent` flag, and the callback invocations so far. -/
structure LLMScanState where
  fullText : String
  firstSentenceSent : Bool
  fired : List String
  deriving Repr, DecidableEq

def LLMScanState.init : LLMScanState := ⟨"", false, []⟩

/-- One delta of the LLM stream (`if (delta) { fullText += delta; ... }`):
append, and if no first sentence was sent yet, evaluate the early-start
condition on the new accumulated text and fire the callback on a match. -/
def scanStep (st : LLMScanState) (delta : String) : LLMScanState :=
  if delta.isEmpty then st
  else
    let fullText := st.fullText ++ delta
    if st.firstSentenceSent then { st with fullText }
    else if codeFireCond fullText then
      { fullText, firstSentenceSent := true,
        fired := st.fired ++ [firstSentenceOf fullText] }
    else { st with fullText }

/-- The whole stream of deltas. -/
def runLLMScan (deltas : List String) : LLMScanState :=
  deltas.foldl scanStep LLMScanState.init

/-- The `onFirstSentence` callback installed by `processTurn`: record the
sentence as `firstSpokenText` and set `ttsStarted`, but only when no TTS was
started yet, the captured playback token is still current, and the call has
not ended.  State is the pair `(ttsStarted, firstSpokenText)`. -/
def ttsCallbackUpdate (st : Bool × String) (stillValid : Bool)
    (firstSentence : String) : Bool × String :=
  if !st.1 && stillValid then (true, firstSentence) else st

/-! ## Provider-neutral outbound frames
(`sendToCaller`, `sendAudioToCaller`, `clearCallerAudio`) -/

inductive Provider where
  | twilio
  | telnyx
  deriving Repr, DecidableEq

/-- The JSON values this program sends: strings and objects with ordered
fields, exactly the shape handed to `JSON.stringify`. -/
inductive Json where
  | str : String → Json
  | obj : List (String × Json) → Json

/-- The outbound media frame object, per provider. -/
def mediaFrame (p : Provider) (sid payload : String) : Json :=
  match p with
  | .telnyx => .obj [("event", .str "media"), ("stream_id", .str sid),
      ("media", .obj [("payload", .str payload)])]
  | .twilio => .obj [("event", .str "media"), ("streamSid", .str sid),
      ("media", .obj [("payload", .str payload)])]

/-- The outbound clear frame object, per provider. -/
def clearFrame (p : Provider) (sid : String) : Json :=
  match p with
  | .telnyx => .obj [("event", .str "clear"), ("stream_id", .str sid)]
  | .twilio => .obj [("event", .str "clear"), ("streamSid", .str sid)]

/-- Rename one top-level key of a JSON object, touching nothing else. -/
def renameKey (oldKey newKey : String) : Json → Json
  | .obj fields =>
    .obj (fields.map (fun kv => (if kv.1 = oldKey then newKey else kv.1, kv.2)))
  | j => j

/-! ## Session flags and the outbound-send guards (`handleWebSocket` v6) -/

/-- The per-session mutable flags consulted by every send. -/
structure SessFlags where
  isCallEnded : Bool
  socketOpen : Bool
  streamSid : Option String
  provider : Provider
  twilioPlaybackToken : Nat
  isTTSPlaying : Bool
  deriving Repr

/-- `sendToCaller`: drop the frame unless the socket is open and the call
has not ended. -/
def sendToCaller (s : SessFlags) (msg : Json) : List Json :=
  if !s.socketOpen || s.isCallEnded then [] else [msg]

/-- `sendAudioToCaller`: requires a stream id and a live call, then frames
the payload for the active provider. -/
def sendAudioToCaller (s : SessFlags) (payloadBase64 : String) : List Json :=
  match s.streamSid with
  | none => []
  | some sid =>
    if s.isCallEnded then []
    else sendToCaller s (mediaFrame s.provider sid payloadBase64)

/-- `clearCallerAudio`: same guards, emitting the clear frame. -/
def clearCallerAudio (s : SessFlags) : List Json :=
  match s.streamSid with
  | none => []
  | some sid =>
    if s.isCallEnded then []
    else sendToCaller s (clearFrame s.provider sid)

/-- One send iteration of the `streamElevenLabsTTS` loop: the loop guard
(`currentToken !== twilioPlaybackToken || isCallEnded || socket not open`
cancels the reader) followed by the per-chunk guard before
`sendAudioToCaller`.  `captured` is the playback token the stream was
started with; `s` is the session state observed at this iteration. -/
def ttsLoopSend (s : SessFlags) (captured : Nat) (chunk : String) : List Json :=
  if captured ≠ s.twilioPlaybackToken || s.isCallEnded || !s.socketOpen then []
  else if s.streamSid.isSome && s.socketOpen && !s.isCallEnded then
    sendAudioToCaller s chunk
  else []

/-- The externally visible events of a session, as dispatched by
`socket.onmessage` and `socket.onclose`.  TTS chunk arrivals are events of
their own because the TTS streams run concurrently with the handler; a
`media` frame carries its decoded payload bytes. -/
inductive SessEvent where
  | connected
  | startFrame (sid : Option String) (prov : Provider)
  | mediaEvt (payload : List (Fin 256))
  | stopFrame
  | socketClose
  | ttsChunk (captured : Nat) (chunk : String)

/-- One step of the session: the new flags and the frames sent to the
carrier by this event.  `start` sets the stream id and provider (its
greeting audio arrives as `ttsChunk` events); `media` performs the barge-in
check (turn segmentation emits no frames directly; the reply audio of a
completed turn also arrives as `ttsChunk` events); `stop` and socket close latch
`isCallEnded`. -/
def stepSession (s : SessFlags) (e : SessEvent) : SessFlags × List Json :=
  match e with
  | .connected => (s, [])
  | .startFrame sid prov => ({ s with streamSid := sid, provider := prov }, [])
  | .mediaEvt payload =>
    if s.socketOpen && !s.isCallEnded then
      if s.isTTSPlaying && hasVoice35 (decodeUlaw payload) then
        let s2 := { s with twilioPlaybackToken := s.twilioPlaybackToken + 1 }
        (({ s2 with isTTSPlaying := false }), clearCallerAudio s2)
      else (s, [])
    else (s, [])
  | .stopFrame => ({ s with isCallEnded := true }, [])
  | .socketClose => ({ s with isCallEnded := true, socketOpen := false }, [])
  | .ttsChunk captured chunk => (s, ttsLoopSend s captured chunk)

/-! ## Pipeline orchestrator (`processTurn`)

`processTurn` is an async function whose awaits interleave with the rest of
the session.  The model is sequential with the concurrent world reified in
a `TurnEnv`: each provider call yields its result (`Except` for a thrown
HTTP error), and each await records how many times the ambient session
bumped the playback token meanwhile and whether it latched `isCallEnded`.
The external calls issued (STT, LLM, TTS with its text) are returned as an
ordered log. -/

structure SessState where
  isProcessingTurn : Bool
  isTTSPlaying : Bool
  isCallEnded : Bool
  twilioPlaybackToken : Nat
  conversationHistory : List ChatMessageF
  conversationTranscript : List (String × String)
  turnsCount : Nat
  deriving Repr, DecidableEq

inductive PipelineCall where
  | stt
  | llm
  | tts (text : String)
  deriving Repr, DecidableEq

/-- What the outside world did at each suspension point of one turn. -/
structure TurnEnv where
  sttResult : Except Unit String
  bumpsDuringSTT : Nat
  endedDuringSTT : Bool
  llmResult : Except Unit String
  llmFired : Option String
  bumpsDuringLLM : Nat
  endedDuringLLM : Bool
  deriving Repr

/-- `processTurn`: guard, set the processing flags, capture a fresh playback
token, then STT, the empty-transcript and interruption checks, history
append, streaming LLM with the parallel first-sentence TTS, the second
empty and interruption checks, history append, and the remainder TTS; the
`finally` block clears both flags on every completion path, including a
thrown provider error. -/
def processTurn (s : SessState) (env : TurnEnv) : SessState × List PipelineCall :=
  if s.isProcessingTurn || s.isCallEnded then (s, [])
  else
    let s := { s with isProcessingTurn := true, isTTSPlaying := true }
    let captured := s.twilioPlaybackToken + 1
    let s := { s with twilioPlaybackToken := captured }
    let s := { s with turnsCount := s.turnsCount + 1 }
    match env.sttResult with
    | .error _ =>
      -- transcribeAudio threw; caught, then the finally block runs
      ({ s with isProcessingTurn := false, isTTSPlaying := false }, [.stt])
    | .ok userText =>
      let s := { s with
        twilioPlaybackToken := s.twilioPlaybackToken + env.bumpsDuringSTT,
        isCallEnded := s.isCallEnded || env.endedDuringSTT }
      if (jsTrim userText).isEmpty then
        ({ s with isProcessingTurn := false, isTTSPlaying := false }, [.stt])
      else if captured ≠ s.twilioPlaybackToken || s.isCallEnded then
        ({ s with isProcessingTurn := false, isTTSPlaying := false }, [.stt])
      else
        let s := { s with
          conversationTranscript := s.conversationTranscript ++ [("user", userText)],
          conversationHistory := s.conversationHistory ++ [ChatMessageF.mk Role.user userText] }
        match env.llmResult with
        | .error _ =>
          ({ s with isProcessingTurn := false, isTTSPlaying := false }, [.stt, .llm])
        | .ok assistantText =>
          -- first-sentence callback, fired during the LLM stream
          let cb :=
            match env.llmFired with
            | some fs =>
              ttsCallbackUpdate (false, "")
                (captured == s.twilioPlaybackToken && !s.isCallEnded) fs
            | none => (false, "")
          let ttsStarted := cb.1
          let firstSpokenText := cb.2
          let firedCalls : List PipelineCall :=
            if ttsStarted then [.tts firstSpokenText] else []
          let s := { s with
            twilioPlaybackToken := s.twilioPlaybackToken + env.bumpsDuringLLM,
            isCallEnded := s.isCallEnded || env.endedDuringLLM }
          if (jsTrim assistantText).isEmpty then
            ({ s with isProcessingTurn := false, isTTSPlaying := false },
             [.stt, .llm] ++ firedCalls)
          else if captured ≠ s.twilioPlaybackToken || s.isCallEnded then
            ({ s with isProcessingTurn := false, isTTSPlaying := false },
             [.stt, .llm] ++ firedCalls)
          else
            let s := { s with
              conversationTranscript :=
                s.conversationTranscript ++ [("agent", assistantText)],
              conversationHistory :=
                s.conversationHistory ++ [ChatMessageF.mk Role.assistant assistantText] }
            let tailCalls : List PipelineCall :=
              if !ttsStarted then [.tts assistantText]
              else if captured == s.twilioPlaybackToken && !s.isCallEnded then
                let remainder :=
                  if assistantText.startsWith firstSpokenText then
                    jsTrim (jsDrop assistantText firstSpokenText.length)
                  else jsTrim assistantText
                if remainder.length > 0 then [.tts remainder] else []
              else []
            ({ s with isProcessingTurn := false, isTTSPlaying := false },
             [.stt, .llm] ++ firedCalls ++ tailCalls)

/-- The dispatch in the `media` handler when the segmenter returns a
completed turn: launch `processTurn` only when neither processing nor TTS
playback is in progress; otherwise the turn is dropped on the floor
(there is no queue). -/
def handleTurnComplete (s : SessState) (env : TurnEnv) :
    SessState × List PipelineCall :=
  if !s.isProcessingTurn && !s.isTTSPlaying then processTurn s env
  else (s, [])

/-! # Theorems -/

set_option maxRecDepth 40000 in
/-- C10: the mu-law decoder returns one 16-bit sample per input byte
(`(decodeUlaw bs).length = bs.length`), each sample is the fixed table
entry for that byte and lies in `[-32124, 32124]`, and the table is
sign-symmetric: entry `i + 128` is the negation of entry `i` for
`i ∈ [0, 126]`, with entries `127` and `255` both zero. -/
theorem c10_ulaw_decode :
    (∀ bs : List (Fin 256), (decodeUlaw bs).length = bs.length) ∧
    (∀ (bs : List (Fin 256)) (i : Nat), i < bs.length →
      (decodeUlaw bs).getD i 0 = ULAW_DECODE_TABLE.getD (bs.getD i 0).val 0) ∧
    (∀ b : Fin 256,
      -32124 ≤ ULAW_DECODE_TABLE.getD b.val 0 ∧
        ULAW_DECODE_TABLE.getD b.val 0 ≤ 32124) ∧
    (∀ i : Fin 127,
      ULAW_DECODE_TABLE.getD (i.val + 128) 0 = - ULAW_DECODE_TABLE.getD i.val 0) ∧
    ULAW_DECODE_TABLE.getD 127 0 = 0 ∧ ULAW_DECODE_TABLE.getD 255 0 = 0 := by
  refine ⟨?_, ?_, by decide, by decide, by decide, by decide⟩
  · intro bs
    simp [decodeUlaw]
  · intro bs i h
    simp only [decodeUlaw, List.getD_eq_getElem?_getD, List.getElem?_map,
      List.getElem?_eq_getElem h]
    simp [List.getD_eq_getElem?_getD, List.getElem?_eq_getElem h]

/-- Witness for C10 at a concrete input: the two-byte payload `[0, 255]`
decodes with its first sample given by table entry 0. -/
theorem c10_ulaw_decode_witness :
    (0 : Nat) < ([(0 : Fin 256), 255] : List (Fin 256)).length ∧
    (decodeUlaw [(0 : Fin 256), 255]).getD 0 0 =
      ULAW_DECODE_TABLE.getD ((([(0 : Fin 256), 255]).getD 0 0)).val 0 :=
  ⟨by decide, c10_ulaw_decode.2.1 [(0 : Fin 256), 255] 0 (by decide)⟩

/-- C9: for the same semantic outbound action and stream identifier, the
Telnyx frame is exactly the Twilio frame with the key `streamSid` renamed
to `stream_id`; every other key and every value is identical. -/
theorem c9_provider_neutral_frames :
    ∀ sid payload : String,
      mediaFrame Provider.telnyx sid payload =
        renameKey "streamSid" "stream_id" (mediaFrame Provider.twilio sid payload) ∧
      clearFrame Provider.telnyx sid =
        renameKey "streamSid" "stream_id" (clearFrame Provider.twilio sid) := by
  intro sid payload
  constructor <;> simp [mediaFrame, clearFrame, renameKey]

/-- C2: once `isCallEnded` is set, every send helper is a no-op
(`sendToCaller`, `sendAudioToCaller`, `clearCallerAudio`, and the send
step of the TTS streaming loop), no session event emits any outbound
frame, and no session event ever unsets the flag; the `stop` frame and
the socket close both set it. -/
theorem c2_callEnded_latch :
    ∀ (s : SessFlags) (e : SessEvent) (msg : Json) (payload chunk : String)
      (captured : Nat),
      (s.isCallEnded = true →
        sendToCaller s msg = [] ∧
        sendAudioToCaller s payload = [] ∧
        clearCallerAudio s = [] ∧
        ttsLoopSend s captured chunk = [] ∧
        (stepSession s e).2 = [] ∧
        (stepSession s e).1.isCallEnded = true) ∧
      (stepSession s SessEvent.stopFrame).1.isCallEnded = true ∧
      (stepSession s SessEvent.socketClose).1.isCallEnded = true := by
  intro s e msg payload chunk captured
  refine ⟨fun h => ?_, by simp [stepSession], by simp [stepSession]⟩
  refine ⟨by simp [sendToCaller, h], ?_, ?_, by simp [ttsLoopSend, h], ?_, ?_⟩
  · cases hs : s.streamSid <;> simp [sendAudioToCaller, hs, h]
  · cases hs : s.streamSid <;> simp [clearCallerAudio, hs, h]
  · cases e <;> simp [stepSession, h, ttsLoopSend]
  · cases e <;> simp [stepSession, h, ttsLoopSend]

/-- Witness for C2 at a concrete ended session: no helper sends anything,
a media event emits nothing, and the stop frame latches the flag. -/
theorem c2_callEnded_latch_witness :
    sendToCaller ⟨true, true, some "MZ1", Provider.twilio, 3, true⟩ (Json.str "x") = [] ∧
    sendAudioToCaller ⟨true, true, some "MZ1", Provider.twilio, 3, true⟩ "QUIA" = [] ∧
    clearCallerAudio ⟨true, true, some "MZ1", Provider.twilio, 3, true⟩ = [] ∧
    ttsLoopSend ⟨true, true, some "MZ1", Provider.twilio, 3, true⟩ 3 "QUIA" = [] ∧
    (stepSession ⟨true, true, some "MZ1", Provider.twilio, 3, true⟩
      (SessEvent.mediaEvt [0])).2 = [] ∧
    (stepSession ⟨false, true, some "MZ1", Provider.twilio, 3, true⟩
      SessEvent.stopFrame).1.isCallEnded = true := by
  have h := c2_callEnded_latch ⟨true, true, some "MZ1", Provider.twilio, 3, true⟩
    (SessEvent.mediaEvt [0]) (Json.str "x") "QUIA" "QUIA" 3
  have h2 := c2_callEnded_latch ⟨false, true, some "MZ1", Provider.twilio, 3, true⟩
    (SessEvent.mediaEvt [0]) (Json.str "x") "QUIA" "QUIA" 3
  exact ⟨(h.1 rfl).1, (h.1 rfl).2.1, (h.1 rfl).2.2.1, (h.1 rfl).2.2.2.1,
    (h.1 rfl).2.2.2.2.1, h2.2.1⟩

/-- C3: `processTurn` is an immediate no-op (no state mutation, no provider
call) when `isProcessingTurn` is already set; whenever it is entered with
the flag clear, the flag is clear again on every completion path, including
a thrown STT or LLM error (the `finally` block); and a completed turn
arriving while processing or TTS playback is in progress is dropped by the
`media` handler — state untouched, nothing queued, no provider call. -/
theorem c3_at_most_one_turn :
    ∀ (s : SessState) (env : TurnEnv),
      (s.isProcessingTurn = true → processTurn s env = (s, [])) ∧
      (s.isProcessingTurn = false →
        (processTurn s env).1.isProcessingTurn = false ∧
        (processTurn s env).1.isTTSPlaying = false ∨
        processTurn s env = (s, [])) ∧
      (s.isProcessingTurn = true ∨ s.isTTSPlaying = true →
        handleTurnComplete s env = (s, [])) := by
  intro s env
  refine ⟨fun h => by simp [processTurn, h], fun h => ?_, fun h => ?_⟩
  · by_cases hce : s.isCallEnded
    · right
      simp [processTurn, h, hce]
    · left
      simp only [processTurn, h, hce, Bool.or_self, Bool.false_eq_true,
        if_false, ite_false]
      rcases env.sttResult with e | t
      · simp
      · simp only
        split
        · simp
        · split
          · simp
          · rcases env.llmResult with e2 | a
            · simp
            · simp only
              split
              · simp
              · split
                · simp
                · simp
  · rcases h with h | h <;> simp [handleTurnComplete, h]

/-- Witness for C3 at concrete sessions: a busy session is left exactly as
it was; a fresh session ends with the processing flag clear; a session with
TTS playing drops the completed turn. -/
theorem c3_at_most_one_turn_witness :
    processTurn ⟨true, false, false, 0, [], [], 0⟩
      ⟨Except.ok "hola", 0, false, Except.ok "buenas", none, 0, false⟩ =
      (⟨true, false, false, 0, [], [], 0⟩, []) ∧
    ((processTurn ⟨false, false, false, 0, [], [], 0⟩
      ⟨Except.ok "hola", 0, false, Except.ok "buenas", none, 0, false⟩).1.isProcessingTurn =
        false ∧
      (processTurn ⟨false, false, false, 0, [], [], 0⟩
        ⟨Except.ok "hola", 0, false, Except.ok "buenas", none, 0, false⟩).1.isTTSPlaying =
        false ∨
      processTurn ⟨false, false, false, 0, [], [], 0⟩
        ⟨Except.ok "hola", 0, false, Except.ok "buenas", none, 0, false⟩ =
        (⟨false, false, false, 0, [], [], 0⟩, [])) ∧
    handleTurnComplete ⟨false, true, false, 0, [], [], 0⟩
      ⟨Except.ok "hola", 0, false, Except.ok "buenas", none, 0, false⟩ =
      (⟨false, true, false, 0, [], [], 0⟩, []) := by
  refine ⟨?_, ?_, ?_⟩
  · exact (c3_at_most_one_turn _ _).1 rfl
  · exact (c3_at_most_one_turn _ _).2.1 rfl
  · exact (c3_at_most_one_turn _ _).2.2 (Or.inr rfl)

/-- C5: when STT returns a transcript that trims to the empty string,
`processTurn` aborts before the LLM step: the conversation history and the
transcript log are unchanged, the only provider call issued is the STT call
itself (no LLM, no TTS), and both the processing and the TTS-playing flags
are cleared. -/
theorem c5_empty_transcript_abort :
    ∀ (s : SessState) (env : TurnEnv) (t : String),
      s.isProcessingTurn = false → s.isCallEnded = false →
      env.sttResult = Except.ok t → (jsTrim t).isEmpty = true →
      (processTurn s env).1.conversationHistory = s.conversationHistory ∧
      (processTurn s env).1.conversationTranscript = s.conversationTranscript ∧
      (processTurn s env).2 = [PipelineCall.stt] ∧
      (processTurn s env).1.isProcessingTurn = false ∧
      (processTurn s env).1.isTTSPlaying = false := by
  intro s env t h1 h2 h3 h4
  simp [processTurn, h1, h2, h3, h4]

/-- Witness for C5: a whitespace-only transcript on a fresh session leaves
history and transcript empty, issues only the STT call, and clears both
flags. -/
theorem c5_empty_transcript_abort_witness :
    (processTurn ⟨false, false, false, 0, [], [], 0⟩
      ⟨Except.ok "   ", 0, false, Except.ok "buenas", none, 0, false⟩).1.conversationHistory =
      [] ∧
    (processTurn ⟨false, false, false, 0, [], [], 0⟩
      ⟨Except.ok "   ", 0, false, Except.ok "buenas", none, 0, false⟩).1.conversationTranscript =
      [] ∧
    (processTurn ⟨false, false, false, 0, [], [], 0⟩
      ⟨Except.ok "   ", 0, false, Except.ok "buenas", none, 0, false⟩).2 =
      [PipelineCall.stt] := by
  have h := c5_empty_transcript_abort ⟨false, false, false, 0, [], [], 0⟩
    ⟨Except.ok "   ", 0, false, Except.ok "buenas", none, 0, false⟩ "   "
    rfl rfl rfl (by decide)
  exact ⟨h.1, h.2.1, h.2.2.1⟩

/-! ## C1: failing trace for the Speaking-state silence accounting

The configuration is the one the session constructs
(`silenceDurationMs = 600`, `minTurnDurationMs = 300`), one frame per
timestamp.  Byte `0` decodes to sample `-32124` (voiced at well over
-40 dB); byte `127` decodes to `0` (silence).  Frames: voiced at t=1000,
silence at t=1100, voiced again at t=1200, then silence at t=1300..1700. -/

def c1Cfg : VADConfig := ⟨600, 300, 300⟩

def c1VoicedFrame : List (Fin 256) := [0]

def c1SilentFrame : List (Fin 256) := [127]

def c1Trace : List (List (Fin 256) × Nat) :=
  [(c1VoicedFrame, 1000), (c1SilentFrame, 1100), (c1VoicedFrame, 1200),
   (c1SilentFrame, 1300), (c1SilentFrame, 1400), (c1SilentFrame, 1500),
   (c1SilentFrame, 1700)]

/-- C1 (code bug): a voiced frame in the Speaking state does NOT clear
`silenceStartTime`.  On the trace above, the frame at t=1200 is voiced,
yet after it the segmenter still carries `silenceStartTime = 1100` (set at
the t=1100 silence); so the t=1700 silent frame measures 600 ms from
t=1100 and finalizes a turn — even though the trailing silence after the
last voiced frame (t=1200) is only 500 ms < `silenceDurationMs`.  Under
the claim, the voiced frame at t=1200 would reset the timer and no turn
could finalize before t=1200+600. -/
theorem c1_silence_timer_not_cleared :
    hasVoice40 (decodeUlaw c1VoicedFrame) = true ∧
    hasVoice40 (decodeUlaw c1SilentFrame) = false ∧
    ((runTurnChunks c1Cfg 15 TurnState.init (c1Trace.take 3)).1.isUserSpeaking
      = true ∧
     (runTurnChunks c1Cfg 15 TurnState.init (c1Trace.take 3)).1.silenceStartTime
      = some 1100) ∧
    (runTurnChunks c1Cfg 15 TurnState.init c1Trace).2 =
      [none, none, none, none, none, none, some 700] := by
  decide

/-! ## Prompt-optimizer lemmas (C6, C7) -/

lemma jsTake_length_le (s : String) (n : Nat) : (jsTake s n).length ≤ n := by
  show (s.data.take n).length ≤ n
  simp [List.length_take]

lemma scriptStart_none_of_no_markers (p : String)
    (hm : ∀ m ∈ scriptMarkers, jsIndexOf (jsToUpper p) (jsToUpper m) = none) :
    (findSectionBoundaries p).scriptStart = none := by
  have h1 := hm "FLUJO DE" (by simp [scriptMarkers])
  have h2 := hm "FLUJO:" (by simp [scriptMarkers])
  have h3 := hm "SCRIPT:" (by simp [scriptMarkers])
  have h4 := hm "PASOS:" (by simp [scriptMarkers])
  have h5 := hm "PASO 1" (by simp [scriptMarkers])
  have h6 := hm "## Flujo" (by simp [scriptMarkers])
  have h7 := hm "## Script" (by simp [scriptMarkers])
  have h8 := hm "CONVERSACIÓN:" (by simp [scriptMarkers])
  have h9 := hm "GUIÓN" (by simp [scriptMarkers])
  simp [findSectionBoundaries, scriptMarkers, h1, h2, h3, h4, h5, h6, h7, h8, h9]

/-- C7: for a prompt containing no script marker, `optimizeSystemPrompt`
returns it unchanged when its length is at most 32000; when it is longer,
the result is the 31900-character head plus the trailing ellipsis marker,
so it ends with the marker and never exceeds 32000 characters. -/
theorem c7_no_script_truncation :
    ∀ p : String,
      (∀ m ∈ scriptMarkers, jsIndexOf (jsToUpper p) (jsToUpper m) = none) →
      (p.length ≤ 32000 → optimizeSystemPrompt p = p) ∧
      (32000 < p.length →
        optimizeSystemPrompt p = jsTake p 31900 ++ "\n\n[... truncado ...]" ∧
        (optimizeSystemPrompt p).length ≤ 32000 ∧
        ∃ pre, (optimizeSystemPrompt p).data =
          pre ++ ("\n\n[... truncado ...]" : String).data) := by
  intro p hm
  have hss := scriptStart_none_of_no_markers p hm
  by_cases hpe : p.isEmpty = true
  · have hp0 : p = "" := (String.isEmpty_iff p).mp hpe
    subst hp0
    refine ⟨fun _ => by simp [optimizeSystemPrompt, hpe], fun hlen => ?_⟩
    simp [String.length] at hlen
  · have hpe2 : p.isEmpty = false := by
      revert hpe
      cases p.isEmpty <;> simp
    have hbase : optimizeSystemPrompt p =
        if p.length ≤ MAX_SYSTEM_PROMPT_CHARS then p
        else jsTake p (MAX_SYSTEM_PROMPT_CHARS - 100) ++ "\n\n[... truncado ...]" := by
      simp [optimizeSystemPrompt, hpe2, hss]
    constructor
    · intro hlen
      rw [hbase, if_pos]
      simpa [MAX_SYSTEM_PROMPT_CHARS] using hlen
    · intro hlen
      have heq : optimizeSystemPrompt p =
          jsTake p 31900 ++ "\n\n[... truncado ...]" := by
        rw [hbase, if_neg]
        · norm_num [MAX_SYSTEM_PROMPT_CHARS]
        · simp only [MAX_SYSTEM_PROMPT_CHARS]
          omega
      refine ⟨heq, ?_, (jsTake p 31900).data, by rw [heq, String.data_append]⟩
      rw [heq, String.length_append]
      have ht := jsTake_length_le p 31900
      have hmk : ("\n\n[... truncado ...]" : String).length = 20 := by decide
      omega

/-- Witness for C7: a short marker-free prompt is returned unchanged. -/
theorem c7_no_script_truncation_witness :
    optimizeSystemPrompt "hola que tal" = "hola que tal" :=
  (c7_no_script_truncation "hola que tal" (by decide)).1 (by decide)

/-! ## C6: the REGLAS-before-FLUJO scenario -/

/-- The scenario input of the claim: a rules marker before a script marker. -/
def c6Example : String := "REGLAS: X\nFLUJO: Y"

/-- C6 counterexample: the input contains `REGLAS: X` (at 0) before
`FLUJO: Y` (at 10), but the optimized output contains NO rules block at
all — the rules marker that precedes the script marker is skipped, and
`REGLAS: X` lands inside the persona block.  Hence the claim "the output
places the script block (containing Y) before the rules block (containing
X)" is false at this input: there is no rules block containing X. -/
theorem c6_reorder_counterexample :
    jsIndexOf (jsToUpper c6Example) "REGLAS:" = some 0 ∧
    jsIndexOf (jsToUpper c6Example) "FLUJO:" = some 10 ∧
    jsIndexOf (optimizeSystemPrompt c6Example) "[REGLAS Y RESTRICCIONES]" = none ∧
    optimizeSystemPrompt c6Example =
      "[SCRIPT DE CONVERSACIÓN - PRIORIDAD MÁXIMA]\nFLUJO: Y\n\n[CONTEXTO Y PERSONA]\nREGLAS: X" := by
  decide

lemma findSectionBoundaries_empty : (findSectionBoundaries "") = ⟨none, 0, none⟩ := by
  decide

lemma jsTake_empty (n : Nat) : jsTake "" n = "" := by
  simp [jsTake]

/-- C6 amended: for every prompt in which a script marker is found, the
output is the script section first (truncated to at most 16000
characters), then the persona section (at most 4000), then the rules
section (at most 6000) — where the rules section is populated only from a
rules marker that occurs after the script marker; a rules marker occurring
before the script marker (as in "REGLAS: X" before "FLUJO: Y") is not
treated as a rules section, its text remaining in the persona block, which
still appears after the script block. -/
theorem c6_reorder_amended :
    ∀ (p : String) (s : Nat), (findSectionBoundaries p).scriptStart = some s →
      ∃ ts tp tr : String,
        optimizeSystemPrompt p =
          jsTrim ("[SCRIPT DE CONVERSACIÓN - PRIORIDAD MÁXIMA]\n" ++ ts ++
            "\n\n[CONTEXTO Y PERSONA]\n" ++ tp ++ "\n\n" ++
            (if tr.isEmpty then "" else "[REGLAS Y RESTRICCIONES]\n" ++ tr)) ∧
        ts = jsTake (jsTrim (jsSlice p s (findSectionBoundaries p).scriptEnd))
          SCRIPT_BUDGET ∧
        tp = jsTake (jsTrim (jsTake p s)) PERSONA_BUDGET ∧
        tr = (match (findSectionBoundaries p).rulesStart with
              | some r => jsTake (jsTrim (jsDrop p r)) RULES_BUDGET
              | none => "") ∧
        ts.length ≤ 16000 ∧ tp.length ≤ 4000 ∧ tr.length ≤ 6000 := by
  intro p s hss
  by_cases hpe : p.isEmpty = true
  · exfalso
    have hp0 : p = "" := (String.isEmpty_iff p).mp hpe
    rw [hp0, findSectionBoundaries_empty] at hss
    exact Option.noConfusion hss
  · have hpe2 : p.isEmpty = false := by
      revert hpe
      cases p.isEmpty <;> simp
    refine ⟨_, _, _, ?_, rfl, rfl, rfl, ?_, jsTake_length_le _ _, ?_⟩
    · rcases hr : (findSectionBoundaries p).rulesStart with _ | r <;>
        simp [optimizeSystemPrompt, hpe2, hss, hr, jsTake_empty]
    · exact jsTake_length_le _ _
    · cases hr : (findSectionBoundaries p).rulesStart with
      | none => simp
      | some r => simpa using jsTake_length_le (jsTrim (jsDrop p r)) RULES_BUDGET

/-- Witness for C6 (amended): the scenario input itself, whose script
marker sits at index 10. -/
theorem c6_reorder_amended_witness :
    ∃ ts tp tr : String,
      optimizeSystemPrompt c6Example =
        jsTrim ("[SCRIPT DE CONVERSACIÓN - PRIORIDAD MÁXIMA]\n" ++ ts ++
          "\n\n[CONTEXTO Y PERSONA]\n" ++ tp ++ "\n\n" ++
          (if tr.isEmpty then "" else "[REGLAS Y RESTRICCIONES]\n" ++ tr)) ∧
      ts = jsTake (jsTrim (jsSlice c6Example 10
        (findSectionBoundaries c6Example).scriptEnd)) SCRIPT_BUDGET ∧
      tp = jsTake (jsTrim (jsTake c6Example 10)) PERSONA_BUDGET ∧
      tr = (match (findSectionBoundaries c6Example).rulesStart with
            | some r => jsTake (jsTrim (jsDrop c6Example r)) RULES_BUDGET
            | none => "") ∧
      ts.length ≤ 16000 ∧ tp.length ≤ 4000 ∧ tr.length ≤ 6000 :=
  c6_reorder_amended c6Example 10 (by decide)

/-! ## C4: the first-sentence early-start -/

/-- C4 counterexample: the accumulated text below CONTAINS a terminator
whose index is at least 10 and whose trimmed prefix has length at least 20
(the final one), so under the claim the callback must fire; but the code
only examines the FIRST terminator of the accumulated text, here the
period at index 4, and therefore never fires on this stream. -/
theorem c4_first_sentence_counterexample :
    claimFireCond "Hola. Gracias por llamar a nuestra tienda hoy?" = true ∧
    firstTermIdx "Hola. Gracias por llamar a nuestra tienda hoy?" = some 4 ∧
    (runLLMScan ["Hola. Gracias por llamar a nuestra tienda hoy?"]).fired = [] := by
  decide

lemma scanStep_inv (st : LLMScanState) (d : String)
    (h1 : st.fired.length ≤ 1)
    (h2 : st.firstSentenceSent = false → st.fired = []) :
    (scanStep st d).fired.length ≤ 1 ∧
      ((scanStep st d).firstSentenceSent = false → (scanStep st d).fired = []) := by
  by_cases hd : d.isEmpty = true
  · simpa [scanStep, hd] using ⟨h1, h2⟩
  · by_cases hs : st.firstSentenceSent = true
    · simpa [scanStep, hd, hs] using h1
    · have hs2 : st.firstSentenceSent = false := by
        revert hs
        cases st.firstSentenceSent <;> simp
      by_cases hc : codeFireCond (st.fullText ++ d) = true
      · simp [scanStep, hd, hs2, hc, h2 hs2]
      · simpa [scanStep, hd, hs2, hc] using ⟨h1, h2 hs2⟩

lemma runLLMScan_fold_inv :
    ∀ (deltas : List String) (st : LLMScanState),
      st.fired.length ≤ 1 → (st.firstSentenceSent = false → st.fired = []) →
      (List.foldl scanStep st deltas).fired.length ≤ 1 := by
  intro deltas
  induction deltas with
  | nil => intro st h1 _; simpa using h1
  | cons d rest ih =>
    intro st h1 h2
    simp only [List.foldl_cons]
    exact ih _ (scanStep_inv st d h1 h2).1 (scanStep_inv st d h1 h2).2

/-- C4 amended: during LLM streaming the early-start callback fires, on a
nonempty delta with no earlier fire, exactly when the FIRST terminator of
the new accumulated text has index at least 10 and the trimmed prefix
through it has length at least 20 (an earlier terminator at index below 10
permanently suppresses firing for the turn); the fired value is that
trimmed prefix; across any stream the callback fires at most once; once
fired it never fires again; and a fire with the playback still valid is
recorded as the `firstSpokenText`. -/
theorem c4_first_sentence_amended :
    (∀ deltas : List String, (runLLMScan deltas).fired.length ≤ 1) ∧
    (∀ (st : LLMScanState) (d : String), d.isEmpty = false →
      st.firstSentenceSent = false →
      (codeFireCond (st.fullText ++ d) = true →
        (scanStep st d).fired = st.fired ++ [firstSentenceOf (st.fullText ++ d)] ∧
        (scanStep st d).firstSentenceSent = true) ∧
      (codeFireCond (st.fullText ++ d) = false →
        (scanStep st d).fired = st.fired ∧
        (scanStep st d).firstSentenceSent = false)) ∧
    (∀ (st : LLMScanState) (d : String), st.firstSentenceSent = true →
      (scanStep st d).fired = st.fired) ∧
    (∀ fs : String, ttsCallbackUpdate (false, "") true fs = (true, fs)) := by
  refine ⟨?_, ?_, ?_, fun fs => rfl⟩
  · intro deltas
    exact runLLMScan_fold_inv deltas LLMScanState.init (by simp [LLMScanState.init])
      (fun _ => rfl)
  · intro st d hd hs
    constructor <;> intro hc <;> simp [scanStep, hd, hs, hc]
  · intro st d hs
    unfold scanStep
    split
    · rfl
    · simp [hs]

/-- Witness for C4 (amended): a single delta whose first terminator sits at
index 26 fires once, with the whole sentence as the fired prefix, and the
recording callback stores it. -/
theorem c4_first_sentence_amended_witness :
    (runLLMScan ["Buenos dias estimado senor. Mas"]).fired.length ≤ 1 ∧
    ((scanStep LLMScanState.init "Buenos dias estimado senor. Mas").fired =
      LLMScanState.init.fired ++
        [firstSentenceOf (LLMScanState.init.fullText ++ "Buenos dias estimado senor. Mas")] ∧
     (scanStep LLMScanState.init "Buenos dias estimado senor. Mas").firstSentenceSent =
      true) ∧
    ttsCallbackUpdate (false, "") true "Buenos dias estimado senor." =
      (true, "Buenos dias estimado senor.") := by
  refine ⟨c4_first_sentence_amended.1 _, ?_, c4_first_sentence_amended.2.2.2 _⟩
  exact (c4_first_sentence_amended.2.1 LLMScanState.init
    "Buenos dias estimado senor. Mas" (by decide) rfl).1 (by decide)

/-! ## C8: the flow-state injector -/

/-- The user-message count computed by `detectFlowState`. -/
def userTurnCount (h : List ChatMessageF) : Nat :=
  (h.filter (fun m => m.role == Role.user)).length

lemma decDigits_zero : decDigits 0 = [] := by
  simp [decDigits]

lemma decDigits_succ (k : Nat) :
    decDigits (k + 1) = decDigits ((k + 1) / 10) ++ [decDigitChar ((k + 1) % 10)] := by
  simp [decDigits]

lemma decDigits_ne_nil (n : Nat) (hn : 1 ≤ n) : decDigits n ≠ [] := by
  obtain ⟨k, rfl⟩ : ∃ k, n = k + 1 := ⟨n - 1, by omega⟩
  rw [decDigits_succ]
  simp

lemma decDigitChar_isDigit (d : Nat) (hd : d < 10) : (decDigitChar d).isDigit = true := by
  interval_cases d <;> decide

lemma decDigits_all_digits : ∀ n : Nat, ∀ c ∈ decDigits n, c.isDigit = true := by
  intro n
  induction n using Nat.strong_induction_on with
  | _ n ih =>
    match n with
    | 0 =>
      intro c hc
      rw [decDigits_zero] at hc
      cases hc
    | k + 1 =>
      intro c hc
      rw [decDigits_succ] at hc
      rcases List.mem_append.mp hc with hin | hin
      · exact ih ((k + 1) / 10) (Nat.div_lt_self (by omega) (by omega)) c hin
      · simp at hin
        subst hin
        exact decDigitChar_isDigit _ (Nat.mod_lt _ (by omega))

lemma natToDec_data (m : Nat) (hm : m ≠ 0) : (natToDec m).data = decDigits m := by
  simp [natToDec, hm]

/-- The rendered number of the advanced-conversation template can never
collide with the literal `2:` or `3:` heads of the earlier templates. -/
lemma natToDec_colon_ne (m : Nat) (hm : 4 ≤ m) (d : Char)
    (hd : d = '2' ∨ d = '3') (t1 t2 : List Char) :
    (natToDec m).data ++ ':' :: t1 ≠ d :: ':' :: t2 := by
  intro he
  rw [natToDec_data m (by omega)] at he
  rcases Nat.lt_or_ge m 10 with h10 | h10
  · have hdig : decDigits m = [decDigitChar m] := by
      obtain ⟨k, rfl⟩ : ∃ k, m = k + 1 := ⟨m - 1, by omega⟩
      rw [decDigits_succ, Nat.div_eq_of_lt h10, Nat.mod_eq_of_lt h10, decDigits_zero]
      simp
    rw [hdig] at he
    simp only [List.cons_append, List.nil_append, List.cons.injEq] at he
    obtain ⟨he1, -⟩ := he
    interval_cases m <;> rcases hd with rfl | rfl <;> revert he1 <;> decide
  · obtain ⟨k, rfl⟩ : ∃ k, m = k + 1 := ⟨m - 1, by omega⟩
    rw [decDigits_succ] at he
    obtain ⟨a, as, ha⟩ : ∃ a as, decDigits ((k + 1) / 10) = a :: as := by
      rcases hne : decDigits ((k + 1) / 10) with _ | ⟨a, as⟩
      · exact absurd hne
          (decDigits_ne_nil _ ((Nat.le_div_iff_mul_le (by norm_num)).mpr (by omega)))
      · exact ⟨a, as, rfl⟩
    rw [ha] at he
    simp only [List.cons_append, List.append_assoc, List.cons.injEq] at he
    obtain ⟨-, he2⟩ := he
    rcases as with _ | ⟨b, bs⟩
    · simp only [List.nil_append, List.cons_append, List.cons.injEq] at he2
      obtain ⟨hb, -⟩ := he2
      have hdg := decDigitChar_isDigit ((k + 1) % 10) (Nat.mod_lt _ (by omega))
      rw [hb] at hdg
      exact absurd hdg (by decide)
    · simp only [List.cons_append, List.cons.injEq] at he2
      obtain ⟨hb, -⟩ := he2
      have hbd : b.isDigit = true :=
        decDigits_all_digits ((k + 1) / 10) b (by rw [ha]; simp)
      rw [hb] at hbd
      exact absurd hbd (by decide)

lemma string_length_zero_eq_empty (a : String) (h : a.length = 0) : a = "" := by
  cases a with
  | mk l =>
    cases l with
    | nil => rfl
    | cons c cs => simp [String.length] at h

lemma string_append_ne_empty (a b : String) (ha : a ≠ "") : a ++ b ≠ "" := by
  intro he
  apply ha
  have hl := congrArg String.length he
  rw [String.length_append] at hl
  have h0 : ("" : String).length = 0 := rfl
  rw [h0] at hl
  exact string_length_zero_eq_empty a (by omega)

lemma exists_tail2 (X A B : String) : ∃ r, (X ++ A) ++ B = X ++ r :=
  ⟨A ++ B, by simp only [String.append_assoc]⟩

lemma exists_tail3 (X A B C : String) : ∃ r, ((X ++ A) ++ B) ++ C = X ++ r :=
  ⟨A ++ (B ++ C), by simp only [String.append_assoc]⟩

lemma exists_tail4 (X A B C D : String) :
    ∃ r, (((X ++ A) ++ B) ++ C) ++ D = X ++ r :=
  ⟨A ++ (B ++ (C ++ D)), by simp only [String.append_assoc]⟩

lemma exists_tail_paso (fh nd A B C D E F : String) :
    ∃ r, (((((((fh ++ nd) ++ ":") ++ A) ++ B) ++ C) ++ D) ++ E) ++ F =
      fh ++ (nd ++ (":" ++ r)) :=
  ⟨A ++ (B ++ (C ++ (D ++ (E ++ F)))), by simp only [String.append_assoc]⟩

lemma detectFlowState_zero (h : List ChatMessageF) (hc : userTurnCount h = 0) :
    detectFlowState h = "" := by
  unfold userTurnCount at hc
  simp [detectFlowState, hc]

lemma detectFlowState_one (h : List ChatMessageF) (hc : userTurnCount h = 1) :
    ∃ r, detectFlowState h = (FLOW_HEADER ++ "2:") ++ r := by
  unfold userTurnCount at hc
  simp only [detectFlowState, hc]
  norm_num
  exact exists_tail3 _ _ _ _

lemma detectFlowState_two (h : List ChatMessageF) (hc : userTurnCount h = 2) :
    ∃ r, detectFlowState h = (FLOW_HEADER ++ "3:") ++ r := by
  unfold userTurnCount at hc
  simp only [detectFlowState, hc]
  norm_num
  exact exists_tail4 _ _ _ _ _

lemma detectFlowState_three (h : List ChatMessageF) (n : Nat)
    (hc : userTurnCount h = n) (hn : 3 ≤ n) :
    ∃ r, detectFlowState h = FLOW_HEADER ++ (natToDec (n + 1) ++ (":" ++ r)) := by
  unfold userTurnCount at hc
  have h0 : ¬ n = 0 := by omega
  have h1 : ¬ n = 1 := by omega
  have h2 : ¬ n = 2 := by omega
  simp only [detectFlowState, hc, h0, h1, h2, if_false]
  exact exists_tail_paso _ _ _ _ _ _ _ _

lemma flow_prefix_ne_23 (r1 r2 : String) :
    (FLOW_HEADER ++ "2:") ++ r1 ≠ (FLOW_HEADER ++ "3:") ++ r2 := by
  intro he
  have hd := congrArg String.data he
  simp only [String.data_append, List.append_assoc] at hd
  have hc := List.append_cancel_left hd
  simp at hc

lemma flow_prefix_ne_digit (d : Char) (pre : String) (hpre : pre.data = [d, ':'])
    (hd : d = '2' ∨ d = '3') (r1 r3 : String) (n : Nat) (hn : 3 ≤ n) :
    (FLOW_HEADER ++ pre) ++ r1 ≠ FLOW_HEADER ++ (natToDec (n + 1) ++ (":" ++ r3)) := by
  intro he
  have hdata := congrArg String.data he
  simp only [String.data_append, hpre, List.append_assoc] at hdata
  have hc := List.append_cancel_left hdata
  simp only [List.cons_append, List.nil_append] at hc
  exact natToDec_colon_ne (n + 1) (by omega) d hd r3.data r1.data hc.symm

/-- C8: the flow-state injector counts the user messages of the history it
is given: zero user messages emit the empty string; one, two, and three or
more emit non-empty templates headed `PASO 2:`, `PASO 3:`, and
`PASO N+1:` respectively (for N prior user turns), pairwise distinct; and
the emitted flow state is prepended to the optimized system prompt (with
the reminder appended) for the LLM request. -/
theorem c8_flow_state_injection :
    (∀ h : List ChatMessageF, userTurnCount h = 0 → detectFlowState h = "") ∧
    (∀ h : List ChatMessageF, userTurnCount h = 1 →
      detectFlowState h ≠ "" ∧
      ∃ r, detectFlowState h = (FLOW_HEADER ++ "2:") ++ r) ∧
    (∀ h : List ChatMessageF, userTurnCount h = 2 →
      detectFlowState h ≠ "" ∧
      ∃ r, detectFlowState h = (FLOW_HEADER ++ "3:") ++ r) ∧
    (∀ (h : List ChatMessageF) (n : Nat), userTurnCount h = n → 3 ≤ n →
      detectFlowState h ≠ "" ∧
      ∃ r, detectFlowState h = FLOW_HEADER ++ (natToDec (n + 1) ++ (":" ++ r))) ∧
    (∀ h1 h2 h3 : List ChatMessageF,
      userTurnCount h1 = 1 → userTurnCount h2 = 2 → 3 ≤ userTurnCount h3 →
      detectFlowState h1 ≠ detectFlowState h2 ∧
      detectFlowState h1 ≠ detectFlowState h3 ∧
      detectFlowState h2 ≠ detectFlowState h3) ∧
    (∀ (sys : String) (hist : List ChatMessageF),
      ∃ rest, buildEnhancedPrompt sys hist =
        detectFlowState (jsSliceLast 6 hist) ++ rest) := by
  have hFH : (FLOW_HEADER ++ "2:") ≠ "" := by decide
  have hFH3 : (FLOW_HEADER ++ "3:") ≠ "" := by decide
  have hFHd : FLOW_HEADER ≠ "" := by decide
  refine ⟨detectFlowState_zero, ?_, ?_, ?_, ?_, ?_⟩
  · intro h hc
    obtain ⟨r, hr⟩ := detectFlowState_one h hc
    exact ⟨hr ▸ string_append_ne_empty _ _ hFH, r, hr⟩
  · intro h hc
    obtain ⟨r, hr⟩ := detectFlowState_two h hc
    exact ⟨hr ▸ string_append_ne_empty _ _ hFH3, r, hr⟩
  · intro h n hc hn
    obtain ⟨r, hr⟩ := detectFlowState_three h n hc hn
    exact ⟨hr ▸ string_append_ne_empty _ _ hFHd, r, hr⟩
  · intro h1 h2 h3 hc1 hc2 hc3
    obtain ⟨r1, e1⟩ := detectFlowState_one h1 hc1
    obtain ⟨r2, e2⟩ := detectFlowState_two h2 hc2
    obtain ⟨r3, e3⟩ := detectFlowState_three h3 _ rfl hc3
    refine ⟨?_, ?_, ?_⟩
    · rw [e1, e2]
      exact flow_prefix_ne_23 r1 r2
    · rw [e1, e3]
      exact flow_prefix_ne_digit '2' "2:" rfl (Or.inl rfl) r1 r3 _ hc3
    · rw [e2, e3]
      exact flow_prefix_ne_digit '3' "3:" rfl (Or.inr rfl) r2 r3 _ hc3
  · intro sys hist
    simp only [buildEnhancedPrompt]
    exact exists_tail2 _ _ _

/-- Witness for C8 at concrete histories: zero, one, two, and three user
messages, with the pairwise-distinct templates and the prepended prompt. -/
theorem c8_flow_state_injection_witness :
    detectFlowState [] = "" ∧
    (∃ r, detectFlowState [ChatMessageF.mk Role.user "Juan"] =
      (FLOW_HEADER ++ "2:") ++ r) ∧
    (∃ r, detectFlowState
      [ChatMessageF.mk Role.user "a", ChatMessageF.mk Role.user "b"] =
      (FLOW_HEADER ++ "3:") ++ r) ∧
    (∃ r, detectFlowState
      [ChatMessageF.mk Role.user "a", ChatMessageF.mk Role.user "b",
       ChatMessageF.mk Role.user "c"] =
      FLOW_HEADER ++ (natToDec 4 ++ (":" ++ r))) ∧
    detectFlowState [ChatMessageF.mk Role.user "Juan"] ≠
      detectFlowState
        [ChatMessageF.mk Role.user "a", ChatMessageF.mk Role.user "b"] ∧
    (∃ rest, buildEnhancedPrompt "Eres un asistente."
      [ChatMessageF.mk Role.user "Juan"] =
      detectFlowState (jsSliceLast 6 [ChatMessageF.mk Role.user "Juan"]) ++ rest) := by
  refine ⟨c8_flow_state_injection.1 [] (by decide),
    (c8_flow_state_injection.2.1 _ (by decide)).2,
    (c8_flow_state_injection.2.2.1 _ (by decide)).2, ?_, ?_, ?_⟩
  · exact (c8_flow_state_injection.2.2.2.1 _ 3 (by decide) (by omega)).2
  · exact (c8_flow_state_injection.2.2.2.2.1 _ _
      [ChatMessageF.mk Role.user "a", ChatMessageF.mk Role.user "b",
       ChatMessageF.mk Role.user "c"]
      (by decide) (by decide) (by decide)).1
  · exact c8_flow_state_injection.2.2.2.2.2 _ _

end VoiceMediaAI
